import Mathlib

/-!
Shallow embedding of the event check-in web app's data-source core
(`src/data-sources.js`, `src/config.js`, and the `toggleCheckIn` function of
the check-in interface plan), together with theorems settling the frozen
claims about it.

Modelling conventions:
* JavaScript strings are Lean `String`s; a missing (`undefined`) string field
  and the empty string are identified, since the code only ever consumes such
  fields through `||`-defaulting, `.trim()`, and truthiness tests, for which
  `undefined` and `""` behave alike.
* A nullable timestamp (`checkedInAt` / `checked_in_at`) is `Option String`;
  `none` is JavaScript `null`/`undefined`.
* A numeric `rowIndex` is a `Nat`, with `0` standing for absent (both are
  falsy under `||`).
* Asynchronous fetches are made explicit: each adapter function takes the
  outcome of its network call(s) as an argument, and returns
  `Except String _` (`.error` = rejected promise, `.ok` = resolved).
-/

/-- JavaScript `s.trim()`: drop leading and trailing whitespace. Implemented
over the character list so that it evaluates inside the kernel. -/
def jsTrim (s : String) : String :=
  String.mk
    (((s.data.dropWhile Char.isWhitespace).reverse.dropWhile Char.isWhitespace).reverse)

/-- JavaScript `s.toLowerCase()` (on the ASCII range the app uses). -/
def jsToLower (s : String) : String := String.mk (s.data.map Char.toLower)

/-- Helper for `jsSplitLines`: accumulate the current line (reversed). -/
def splitLinesAux : List Char → List Char → List String
  | [], acc => [String.mk acc.reverse]
  | c :: cs, acc =>
    if c = '\n' then String.mk acc.reverse :: splitLinesAux cs []
    else splitLinesAux cs (c :: acc)

/-- JavaScript `s.split("\n")`. -/
def jsSplitLines (s : String) : List String := splitLinesAux s.data []

/-- JavaScript `a || b` on strings: `""` (and absent) is falsy. -/
def jsOr (a b : String) : String := if a = "" then b else a

/-- JavaScript `v || null` on a nullable string: `null`, `undefined` and `""`
all collapse to `null`. -/
def jsOrNull (v : Option String) : Option String :=
  match v with
  | none => none
  | some s => if s = "" then none else some s

/-- JavaScript `n || d` on numbers where `0` is falsy. -/
def jsOrNat (n d : Nat) : Nat := if n = 0 then d else n

/-- Collapse every maximal run of whitespace to a single underscore
(JavaScript `s.replace(/\s+/g, "_")`), processing the character list with a
flag recording whether the previous character was whitespace. -/
def collapseWsAux : List Char → Bool → List Char
  | [], _ => []
  | c :: cs, prevWs =>
    if c.isWhitespace then
      if prevWs then collapseWsAux cs true
      else '_' :: collapseWsAux cs true
    else c :: collapseWsAux cs false

/-- JavaScript `s.replace(/\s+/g, "_")`. -/
def collapseWs (s : String) : String := String.mk (collapseWsAux s.data false)

/-- The canonical attendee record produced by the adapters' normalizers
(`data-sources.js`). -/
structure Attendee where
  id : String
  tableNumber : String
  groupName : String
  attendeeName : String
  ticketType : String
  email : String
  additionalInfo : String
  status : String
  checkedInAt : Option String
  rowIndex : Nat
deriving DecidableEq, Repr, Inhabited

/-- A raw JSON row as delivered to `CSVDataSource.normalizeAttendeeData` by
the CSV endpoint (`GET ?action=get`). String fields default to `""` when
absent. -/
structure RawCsvRow where
  id : String := ""
  tableNumber : String := ""
  groupName : String := ""
  attendeeName : String := ""
  ticketType : String := ""
  email : String := ""
  additionalInfo : String := ""
  mealChoice : String := ""
  status : String := ""
  checkedInAt : Option String := none
  rowIndex : Nat := 0
deriving DecidableEq, Repr, Inhabited

/-- One entry of the server-held check-in map (`GET ?action=getcheckins`):
`id -> { status, checkedInAt }`. -/
structure CheckinEntry where
  status : String
  checkedInAt : Option String
deriving DecidableEq, Repr, Inhabited

/-- `CSVDataSource.normalizeAttendeeData`, one row at position `index`
(`data-sources.js` lines 269-280). -/
def csvNormalizeRow (attendee : RawCsvRow) (index : Nat) : Attendee :=
  { id := jsOr attendee.id ("csv_" ++ toString index)
    tableNumber := jsOr attendee.tableNumber "General"
    groupName := jsOr attendee.groupName ""
    attendeeName := jsOr attendee.attendeeName ""
    ticketType := jsOr attendee.ticketType ""
    email := jsOr attendee.email ""
    additionalInfo := jsOr attendee.additionalInfo (jsOr attendee.mealChoice "")
    status := jsOr attendee.status "pending"
    checkedInAt := jsOrNull attendee.checkedInAt
    rowIndex := jsOrNat attendee.rowIndex (index + 2) }

/-- `data.map((attendee, index) => ...)` of `CSVDataSource.normalizeAttendeeData`,
carrying the running index. -/
def csvNormalizeAux : List RawCsvRow → Nat → List Attendee
  | [], _ => []
  | r :: rs, i => csvNormalizeRow r i :: csvNormalizeAux rs (i + 1)

/-- `CSVDataSource.normalizeAttendeeData` (`data-sources.js` lines 268-281). -/
def csvNormalizeAttendeeData (data : List RawCsvRow) : List Attendee :=
  csvNormalizeAux data 0

/-- The overlay step of `loadData` (`data-sources.js` lines 203-212, shared
verbatim by the CSV and Google Sheets adapters): for each attendee, if the
server check-in map has an entry for its id, copy that entry's `status` and
`checkedInAt` onto the record. The map lookup `checkinData[attendee.id]`
becomes an association-list lookup. -/
def applyCheckins (checkinData : List (String × CheckinEntry))
    (attendees : List Attendee) : List Attendee :=
  attendees.map fun attendee =>
    match checkinData.lookup attendee.id with
    | some entry =>
        { attendee with status := entry.status, checkedInAt := entry.checkedInAt }
    | none => attendee

/-- A raw sheet row is a list of cell strings (column order:
table number, group, name, ticket type, email, additional info). -/
abbrev SheetRow := List String

/-- The synthesized Google Sheets id (`data-sources.js` line 474):
`gsheet_<name with whitespace runs collapsed to underscores, lowercased>_<index>`
when the trimmed full name is non-empty, else `gsheet_<index>`. -/
def gsheetId (fullName : String) (index : Nat) : String :=
  if fullName ≠ "" then
    "gsheet_" ++ jsToLower (collapseWs fullName) ++ "_" ++ toString index
  else
    "gsheet_" ++ toString index

/-- `GoogleSheetsDataSource.normalizeAttendeeData`, one row at position
`index` (`data-sources.js` lines 453-487), before the trailing
empty-name filter. The email validator is the injected collaborator
`window.EmailValidator.validate`: `validateEmail e = some s` models a valid
result with sanitized form `s`, `none` models an invalid result or an absent
validator, in which case the field stays empty. -/
def gsNormalizeRow (validateEmail : String → Option String)
    (row : SheetRow) (index : Nat) : Attendee :=
  let tableNumber := jsOr (jsTrim (row.getD 0 "")) "General"
  let groupName := jsOr (jsTrim (row.getD 1 "")) ""
  let fullName := jsOr (jsTrim (row.getD 2 "")) ""
  let ticketType := jsOr (jsTrim (row.getD 3 "")) ""
  let email := jsOr (jsTrim (row.getD 4 "")) ""
  let additionalInfo := jsOr (jsTrim (row.getD 5 "")) ""
  let validatedEmail :=
    if email ≠ "" then
      match validateEmail email with
      | some sanitized => sanitized
      | none => ""
    else ""
  { id := gsheetId fullName index
    tableNumber := tableNumber
    groupName := jsOr groupName (jsOr ticketType "General")
    attendeeName := fullName
    ticketType := ticketType
    email := validatedEmail
    additionalInfo := additionalInfo
    status := "pending"
    checkedInAt := none
    rowIndex := index + 2 }

/-- The indexed map of `GoogleSheetsDataSource.normalizeAttendeeData`. -/
def gsNormalizeAux (validateEmail : String → Option String) :
    List SheetRow → Nat → List Attendee
  | [], _ => []
  | row :: rows, i =>
      gsNormalizeRow validateEmail row i :: gsNormalizeAux validateEmail rows (i + 1)

/-- `GoogleSheetsDataSource.normalizeAttendeeData`
(`data-sources.js` lines 452-489): map each row, then
`.filter(attendee => attendee.attendeeName)` keeps only rows whose
(trimmed) attendee name is non-empty. -/
def gsNormalizeAttendeeData (validateEmail : String → Option String)
    (data : List SheetRow) : List Attendee :=
  (gsNormalizeAux validateEmail data 0).filter fun attendee =>
    attendee.attendeeName ≠ ""

/-- The attendee record produced by `GoogleSheetsIntegration.normalizeAttendee`
(`config.js` lines 473-492); that variant carries no id/email/checkedInAt. -/
structure ConfigAttendee where
  tableNumber : String
  groupName : String
  attendeeName : String
  ticketType : String
  status : String
  rowIndex : Nat
deriving DecidableEq, Repr, Inhabited

/-- `GoogleSheetsIntegration.normalizeAttendee` (`config.js` lines 473-492):
trim the first four cells, apply the groupName := ticketType and
tableNumber := "General" fallbacks, then return the record unless
`tableNumber`, `groupName` and `attendeeName` are all empty (in which case
the row is dropped, `null`). -/
def configNormalizeAttendee (values : List String) (rowIndex : Nat) :
    Option ConfigAttendee :=
  let tableNumber0 := jsTrim (values.getD 0 "")
  let groupName0 := jsTrim (values.getD 1 "")
  let attendeeName := jsTrim (values.getD 2 "")
  let ticketType := jsTrim (values.getD 3 "")
  let groupName := if groupName0 = "" ∧ ticketType ≠ "" then ticketType else groupName0
  let tableNumber := if tableNumber0 = "" then "General" else tableNumber0
  if tableNumber ≠ "" ∨ groupName ≠ "" ∨ attendeeName ≠ "" then
    some { tableNumber := tableNumber, groupName := groupName,
           attendeeName := attendeeName, ticketType := ticketType,
           status := "pending", rowIndex := rowIndex }
  else
    none

/-- The JavaScript truthiness test `row && (row[0] || row[1] || row[2])` used
by `GoogleSheetsIntegration.parseSheetRows` to keep rows with data. -/
def sheetRowHasData (row : SheetRow) : Bool :=
  row.getD 0 "" ≠ "" ∨ row.getD 1 "" ≠ "" ∨ row.getD 2 "" ≠ ""

/-- The indexed `.map((row, index) => this.normalizeAttendee(row, index + 2))`
of `parseSheetRows`. -/
def configMapRows : List SheetRow → Nat → List (Option ConfigAttendee)
  | [], _ => []
  | row :: rows, i => configNormalizeAttendee row (i + 2) :: configMapRows rows (i + 1)

/-- `GoogleSheetsIntegration.parseSheetRows` (`config.js` lines 464-470):
skip the header row, keep rows whose first three cells are not all empty,
normalize each with its position in the filtered list, drop `null`s. -/
def parseSheetRows (rows : List SheetRow) : List ConfigAttendee :=
  ((configMapRows ((rows.drop 1).filter sheetRowHasData) 0).filterMap id)

/-- Character loop of `GoogleSheetsDataSource.parseCsvData`
(`data-sources.js` lines 386-402): a double quote toggles `inQuotes` and is
not emitted; a comma outside quotes ends the current field (trimmed);
any other character is appended. The final field is pushed (trimmed) at the
end of the line. -/
def parseCsvLineAux : List Char → List String → String → Bool → List String
  | [], values, currentValue, _ => values ++ [jsTrim currentValue]
  | c :: rest, values, currentValue, inQuotes =>
    if c = '"' then
      parseCsvLineAux rest values currentValue (!inQuotes)
    else if c = ',' ∧ ¬inQuotes then
      parseCsvLineAux rest (values ++ [jsTrim currentValue]) "" inQuotes
    else
      parseCsvLineAux rest values (currentValue.push c) inQuotes

/-- One line of `GoogleSheetsDataSource.parseCsvData`: split into trimmed
field values, honouring double quotes around the delimiter. -/
def parseCsvLine (line : String) : List String :=
  parseCsvLineAux line.data [] "" false

/-- `GoogleSheetsDataSource.parseCsvData` (`data-sources.js` lines 373-412):
split the text into lines, discard blank lines, return `[]` when fewer than
two (non-blank) lines remain, otherwise parse every line after the first
(header) and keep only rows with at least three non-empty field values. -/
def parseCsvData (csvText : String) : List SheetRow :=
  let lines := (jsSplitLines csvText).filter fun line => jsTrim line ≠ ""
  if lines.length < 2 then []
  else
    (lines.drop 1).filterMap fun line =>
      if jsTrim line = "" then none
      else
        let values := parseCsvLine line
        if 3 ≤ (values.filter fun v => v ≠ "").length then some values
        else none

/-- The outcome of one `fetch` (plus body decoding) as observed by an
adapter: a decoded body, a non-ok HTTP status, a rejected network request,
or a body that failed to decode (`response.json()` throwing). -/
inductive FetchResult (α : Type) where
  | ok (body : α)
  | httpError (code : Nat)
  | networkError
  | parseError
deriving DecidableEq, Repr

/-- The JSON reply of the CSV store's `POST ?action=checkin` endpoint. -/
structure ServerReply where
  success : Bool
deriving DecidableEq, Repr

/-- `CSVDataSource.loadData` (`data-sources.js` lines 180-224), with the two
fetches made explicit. The outer `try/catch` converts every failure
(network, HTTP, JSON decode) into a resolved empty array; a failed check-in
overlay fetch is logged and the bare normalized snapshot returned. -/
def csvLoadData (fetchRows : FetchResult (List RawCsvRow))
    (fetchCheckins : FetchResult (List (String × CheckinEntry))) :
    Except String (List Attendee) :=
  match fetchRows with
  | .ok rows =>
      let normalizedData := csvNormalizeAttendeeData rows
      match fetchCheckins with
      | .ok checkinData => .ok (applyCheckins checkinData normalizedData)
      | _ => .ok normalizedData
  | _ => .ok []

/-- `GoogleSheetsDataSource.loadData` (`data-sources.js` lines 294-341):
reject when no sheet URL is configured; otherwise fetch the exported CSV
text, parse and normalize it, apply the server check-in overlay when that
second fetch succeeds; any fetch failure is re-thrown (rejected). -/
def gsLoadData (sheetUrl : String) (validateEmail : String → Option String)
    (fetchCsv : FetchResult String)
    (fetchCheckins : FetchResult (List (String × CheckinEntry))) :
    Except String (List Attendee) :=
  if sheetUrl = "" then .error "Google Sheets URL not configured"
  else
    match fetchCsv with
    | .ok csvText =>
        let normalizedData := gsNormalizeAttendeeData validateEmail (parseCsvData csvText)
        match fetchCheckins with
        | .ok checkinData => .ok (applyCheckins checkinData normalizedData)
        | _ => .ok normalizedData
    | .httpError code => .error ("HTTP " ++ toString code)
    | .networkError => .error "network error"
    | .parseError => .error "body decode error"

/-- A raw row of the Supabase table (snake_case columns), as delivered to
`SupabaseDataSource.normalizeAttendeeData` and to the realtime payload's
`new` record. -/
structure SupaRow where
  id : String
  table_number : String := ""
  group_name : String := ""
  attendee_name : String := ""
  ticket_type : String := ""
  email : String := ""
  additional_info : String := ""
  meal_choice : String := ""
  status : String := ""
  checked_in_at : Option String := none
  row_index : Nat := 0
deriving DecidableEq, Repr, Inhabited

/-- `SupabaseDataSource.normalizeAttendeeData`, one row (`data-sources.js`
lines 622-633). -/
def supabaseNormalizeRow (row : SupaRow) : Attendee :=
  { id := row.id
    tableNumber := jsTrim (jsOr row.table_number "")
    groupName := jsTrim (jsOr row.group_name "")
    attendeeName := jsTrim (jsOr row.attendee_name "")
    ticketType := jsTrim (jsOr row.ticket_type "")
    email := jsTrim (jsOr row.email "")
    additionalInfo := jsTrim (jsOr row.additional_info (jsOr row.meal_choice ""))
    status := jsOr row.status "pending"
    checkedInAt := row.checked_in_at
    rowIndex := row.row_index }

/-- `SupabaseDataSource.loadData` (`data-sources.js` lines 509-529):
reject when the client is unconfigured; otherwise the query either yields an
error (re-thrown) or rows, normalized. The name ordering is performed by the
backend and is irrelevant here. -/
def supabaseLoadData (configured : Bool) (query : Except String (List SupaRow)) :
    Except String (List Attendee) :=
  if ¬configured then
    .error "Supabase not configured. Please provide URL and API key."
  else
    match query with
    | .error e => .error e
    | .ok rows => .ok (rows.map supabaseNormalizeRow)

/-- `CSVDataSource.updateAttendee` (`data-sources.js` lines 232-266): POST
the check-in to the server; a non-ok response throws, but the surrounding
`catch` swallows every failure and resolves with the localStorage-fallback
value `{ success: true }`. -/
def csvUpdateAttendee (attendeeId : String) (updates : CheckinEntry)
    (backend : FetchResult ServerReply) : Except String ServerReply :=
  match backend with
  | .ok result => .ok result
  | _ => .ok { success := true }

/-- `GoogleSheetsDataSource.updateAttendee` (`data-sources.js` lines
419-450): POST the check-in to the server; a non-ok response or a rejected
fetch is logged and re-thrown (the promise rejects). -/
def gsUpdateAttendee (attendeeId : String) (updates : CheckinEntry)
    (backend : FetchResult ServerReply) : Except String ServerReply :=
  match backend with
  | .ok result => .ok result
  | .httpError code => .error ("Server error: " ++ toString code)
  | .networkError => .error "network error"
  | .parseError => .error "body decode error"

/-- `SupabaseDataSource.updateAttendee` (`data-sources.js` lines 569-592):
reject when unconfigured; re-throw any error the client reports; otherwise
resolve (with no payload). -/
def supabaseUpdateAttendee (configured : Bool) (attendeeId : String)
    (updates : CheckinEntry) (dbError : Option String) : Except String Unit :=
  if ¬configured then .error "Supabase not configured"
  else
    match dbError with
    | some e => .error e
    | none => .ok ()

/-- A realtime payload `{ eventType, new, old }` from the Supabase channel. -/
structure RealtimePayload where
  eventType : String
  newRecord : Option SupaRow
  oldRecord : Option SupaRow := none
deriving DecidableEq, Repr

/-- The replacement record built by `window.handleRealtimeUpdate`
(`data-sources.js` lines 652-661). The constructed object carries no
`email`/`additionalInfo` keys, so those fields come out empty. -/
def realtimeReplacement (newRecord : SupaRow) : Attendee :=
  { id := newRecord.id
    tableNumber := jsTrim (jsOr newRecord.table_number "")
    groupName := jsTrim (jsOr newRecord.group_name "")
    attendeeName := jsTrim (jsOr newRecord.attendee_name "")
    ticketType := jsTrim (jsOr newRecord.ticket_type "")
    email := ""
    additionalInfo := ""
    status := jsOr newRecord.status "pending"
    checkedInAt := newRecord.checked_in_at
    rowIndex := newRecord.row_index }

/-- `window.handleRealtimeUpdate` (`data-sources.js` lines 645-667): only
for an `UPDATE` event with a `new` record, find the roster index with the
matching id (`findIndex`) and replace that record; in every other case the
roster is left as it is. -/
def handleRealtimeUpdate (payload : RealtimePayload) (attendees : List Attendee) :
    List Attendee :=
  if payload.eventType = "UPDATE" then
    match payload.newRecord with
    | some newRecord =>
        match attendees.findIdx? (fun a => a.id == newRecord.id) with
        | some index => attendees.set index (realtimeReplacement newRecord)
        | none => attendees
    | none => attendees
  else attendees

/-- `toggleCheckIn` (check-in interface plan, lines 55-90), with the clock
and the persistence outcome made explicit. `updateRejects = false` is the
success path (the optimistic record stands); `updateRejects = true` runs the
`catch` block, which re-flips `status` and then recomputes `checkedInAt`
from the *re-flipped* status and the *new* `timestamp`. -/
def toggleCheckIn (attendees : List Attendee) (attendeeId : String)
    (now : String) (updateRejects : Bool) : List Attendee :=
  match attendees.findIdx? (fun a => a.id == attendeeId) with
  | none => attendees
  | some i =>
    match attendees.get? i with
    | none => attendees
    | some attendee =>
      let newStatus := if attendee.status = "checked-in" then "pending" else "checked-in"
      let timestamp := if newStatus = "checked-in" then some now else none
      let optimistic := { attendee with status := newStatus, checkedInAt := timestamp }
      if updateRejects then
        let revertedStatus :=
          if optimistic.status = "checked-in" then "pending" else "checked-in"
        let revertedCheckedInAt :=
          if revertedStatus = "checked-in" then timestamp else none
        attendees.set i
          { optimistic with status := revertedStatus, checkedInAt := revertedCheckedInAt }
      else
        attendees.set i optimistic

/-- The manager state relevant to stale poll responses: the published roster
(`window.attendees`) and the identity of the current adapter, counted as a
generation that `loadDataSource`/`switchDataSource` advances. -/
structure ManagerState where
  attendees : List Attendee
  sourceGen : Nat
deriving DecidableEq, Repr

/-- Resolution of one polling `loadData` promise
(`DataSourceManager.setupPolling`, `data-sources.js` lines 63-71, together
with `window.handleDataSourceUpdate`, lines 638-642): a non-empty result
replaces the roster. `respGen` records which adapter generation the load was
started under; the callback never consults it — the code has no generation
guard. -/
def resolvePollLoad (st : ManagerState) (respGen : Nat) (data : List Attendee) :
    ManagerState :=
  if 0 < data.length then { st with attendees := data } else st

/-- `DataSourceManager.switchDataSource` (`data-sources.js` lines 87-135)
after the user's confirmation dialog, run to completion of its initial load:
without confirmation nothing happens; with it the roster is cleared, the
current adapter is replaced (generation advances, polling re-armed), and the
new adapter's first `loadData` result replaces the roster when non-empty
(an error or empty result leaves the cleared roster). -/
def switchDataSource (st : ManagerState) (confirmed : Bool)
    (newData : Except String (List Attendee)) : ManagerState :=
  if ¬confirmed then st
  else
    let cleared : ManagerState := { attendees := [], sourceGen := st.sourceGen + 1 }
    match newData with
    | .ok data => if 0 < data.length then { cleared with attendees := data } else cleared
    | .error _ => cleared

/-- The invariant claimed for every attendee record:
`status = "checked-in"` exactly when `checkedInAt` is non-null. -/
def attendeeInv (a : Attendee) : Prop :=
  a.status = "checked-in" ↔ a.checkedInAt ≠ none

/-- The same invariant on a raw CSV row, stated after the `||` defaulting the
normalizer applies. -/
def rawCsvRowInv (r : RawCsvRow) : Prop :=
  jsOr r.status "pending" = "checked-in" ↔ jsOrNull r.checkedInAt ≠ none

/-- The invariant on one server check-in map entry. -/
def checkinEntryInv (e : CheckinEntry) : Prop :=
  e.status = "checked-in" ↔ e.checkedInAt ≠ none

/-- C1: `toggleCheckIn` on a checked-in record whose persistence call
rejects. The optimistic update flips the record to pending/null; the error
handler re-flips `status` to "checked-in" but then recomputes `checkedInAt`
from the *new* `timestamp` (which is `null` for an undo), so the record ends
as `checked-in` with `checkedInAt = null` instead of its pre-update value
`2026-01-23T10:00:00Z`: the in-memory record is **not** restored field for
field, contradicting the claimed rollback and the code's own
"Revert optimistic update on error" intent. -/
theorem toggleCheckIn_failed_undo_loses_timestamp :
    toggleCheckIn
        [{ id := "1", tableNumber := "5", groupName := "VIP",
           attendeeName := "John Doe", ticketType := "VIP Ticket",
           email := "", additionalInfo := "", status := "checked-in",
           checkedInAt := some "2026-01-23T10:00:00Z", rowIndex := 2 }]
        "1" "2026-01-23T11:00:00Z" true =
      [{ id := "1", tableNumber := "5", groupName := "VIP",
         attendeeName := "John Doe", ticketType := "VIP Ticket",
         email := "", additionalInfo := "", status := "checked-in",
         checkedInAt := none, rowIndex := 2 }] ∧
    (some "2026-01-23T10:00:00Z" : Option String) ≠ none := by
  decide

/-- C2 counterexample: a `loadData` response started under adapter
generation 0 that resolves after `switchDataSource` has advanced to
generation 1 *does* alter the roster — the polling callback applies any
non-empty result unconditionally, so the stale snapshot overwrites the
freshly loaded one. -/
theorem staleResponse_overwrites_roster :
    (fun st1 =>
        (0 : Nat) ≠ st1.sourceGen ∧
        (resolvePollLoad st1 0
            [{ id := "stale", tableNumber := "", groupName := "",
               attendeeName := "Stale Row", ticketType := "", email := "",
               additionalInfo := "", status := "pending", checkedInAt := none,
               rowIndex := 2 }]).attendees ≠ st1.attendees)
      (switchDataSource { attendees := [], sourceGen := 0 } true
        (.ok [{ id := "fresh", tableNumber := "", groupName := "",
                attendeeName := "Fresh Row", ticketType := "", email := "",
                additionalInfo := "", status := "pending", checkedInAt := none,
                rowIndex := 2 }])) := by
  decide

/-- C2 (amended): the manager has no generation guard. Clearing the polling
interval in `switchDataSource` stops future ticks of the old adapter, but a
response already in flight is applied when it resolves regardless of its
generation: a non-empty stale response replaces the roster outright, and
only an empty stale response leaves the state unchanged. -/
theorem resolvePollLoad_ignores_generation (st : ManagerState) (respGen : Nat)
    (data : List Attendee) (hstale : respGen ≠ st.sourceGen) :
    (0 < data.length → (resolvePollLoad st respGen data).attendees = data) ∧
    (data.length = 0 → resolvePollLoad st respGen data = st) := by
  constructor
  · intro hlen
    simp [resolvePollLoad, hlen]
  · intro hlen
    simp [resolvePollLoad, hlen]

/-- Witness for `resolvePollLoad_ignores_generation` at a concrete stale
response. -/
theorem resolvePollLoad_ignores_generation_witness :
    (resolvePollLoad { attendees := [], sourceGen := 3 } 2
        [{ id := "stale", tableNumber := "", groupName := "",
           attendeeName := "Stale Row", ticketType := "", email := "",
           additionalInfo := "", status := "pending", checkedInAt := none,
           rowIndex := 2 }]).attendees =
      [{ id := "stale", tableNumber := "", groupName := "",
         attendeeName := "Stale Row", ticketType := "", email := "",
         additionalInfo := "", status := "pending", checkedInAt := none,
         rowIndex := 2 }] :=
  (resolvePollLoad_ignores_generation { attendees := [], sourceGen := 3 } 2 _
    (by decide)).1 (by decide)

/-- C4 counterexample: when the backend reports an HTTP 500 error, the CSV
adapter's `updateAttendee` does not reject — its `catch` block returns the
localStorage-fallback value `{ success: true }`, i.e. the persistence
failure is reported to the caller as success. -/
theorem csvUpdateAttendee_swallows_failure :
    csvUpdateAttendee "csv_0"
        { status := "checked-in", checkedInAt := some "2026-01-23T10:00:00Z" }
        (.httpError 500) = .ok { success := true } := rfl

/-- C4 (amended): the Google Sheets and Supabase adapters propagate a
persistence failure as a rejection, but the CSV adapter never rejects — it
resolves successfully for every backend outcome. -/
theorem updateAttendee_failure_propagation :
    (∀ attendeeId updates code,
      gsUpdateAttendee attendeeId updates (.httpError code) =
        .error ("Server error: " ++ toString code)) ∧
    (∀ attendeeId updates,
      gsUpdateAttendee attendeeId updates .networkError = .error "network error") ∧
    (∀ attendeeId updates e,
      supabaseUpdateAttendee true attendeeId updates (some e) = .error e) ∧
    (∀ attendeeId updates backend,
      ∃ reply, csvUpdateAttendee attendeeId updates backend = .ok reply) := by
  refine ⟨fun _ _ _ => rfl, fun _ _ => rfl, fun _ _ _ => rfl, fun _ _ backend => ?_⟩
  cases backend <;> exact ⟨_, rfl⟩

/-- C5 counterexample: a failed network request makes the CSV adapter's
`loadData` resolve successfully with an empty roster — not a distinguishable
error outcome. -/
theorem csvLoadData_failure_is_empty_success :
    csvLoadData .networkError .networkError = .ok [] := rfl

/-- C5 (amended): the Google Sheets adapter rejects on a missing sheet URL
and on a failed request, and the Supabase adapter rejects when unconfigured
or on a query error; but the CSV adapter's `loadData` never rejects (any
failure resolves as an empty roster), and an unparseable payload is not a
distinct error for the Google Sheets adapter either — it resolves with an
empty list. -/
theorem loadData_error_outcomes :
    (∀ validateEmail fetchCsv fetchCheckins,
      gsLoadData "" validateEmail fetchCsv fetchCheckins =
        .error "Google Sheets URL not configured") ∧
    (∀ url validateEmail fetchCheckins, url ≠ "" →
      gsLoadData url validateEmail .networkError fetchCheckins =
        .error "network error") ∧
    (∀ url validateEmail fetchCheckins code, url ≠ "" →
      gsLoadData url validateEmail (.httpError code) fetchCheckins =
        .error ("HTTP " ++ toString code)) ∧
    (∀ query, supabaseLoadData false query =
      .error "Supabase not configured. Please provide URL and API key.") ∧
    (∀ e, supabaseLoadData true (.error e) = .error e) ∧
    (∀ fetchRows fetchCheckins, ∃ rows,
      csvLoadData fetchRows fetchCheckins = .ok rows) ∧
    (∀ url validateEmail fetchCheckins, url ≠ "" →
      gsLoadData url validateEmail (.ok "no rows here") fetchCheckins = .ok []) := by
  refine ⟨fun _ _ _ => rfl, ?_, ?_, fun _ => rfl, fun _ => rfl, ?_, ?_⟩
  · intro url v fk hurl
    simp [gsLoadData, hurl]
  · intro url v fk code hurl
    simp [gsLoadData, hurl]
  · intro fr fk
    cases fr <;> cases fk <;> exact ⟨_, rfl⟩
  · intro url v fk hurl
    cases fk <;> simp [gsLoadData, hurl, parseCsvData, jsSplitLines, splitLinesAux,
      jsTrim, gsNormalizeAttendeeData, gsNormalizeAux, applyCheckins]

/-- Witness for `loadData_error_outcomes` at a concrete configured URL. -/
theorem loadData_error_outcomes_witness :
    gsLoadData "https://docs.google.com/spreadsheets/d/abc/edit"
        (fun _ => none) .networkError .networkError = .error "network error" :=
  loadData_error_outcomes.2.1 _ (fun _ => none) _ (by decide)

/-- A successful association-list lookup returns a pair of the list. -/
theorem lookup_mem (ck : List (String × CheckinEntry)) (k : String)
    (e : CheckinEntry) (h : ck.lookup k = some e) : (k, e) ∈ ck := by
  induction ck with
  | nil => simp [List.lookup] at h
  | cons p ps ih =>
    rw [List.lookup] at h
    by_cases hk : k = p.1
    · simp [hk] at h
      subst hk
      rw [← h]
      exact List.mem_cons_self _ _
    · simp [beq_eq_false_iff_ne.mpr hk] at h
      exact List.mem_cons_of_mem _ (ih h)

/-- Every record produced by the Google Sheets row normalizer is pending
with a null check-in time. -/
theorem gsNormalizeAux_pending (validateEmail : String → Option String) :
    ∀ (rows : List SheetRow) (i : Nat) (a : Attendee),
      a ∈ gsNormalizeAux validateEmail rows i →
      a.status = "pending" ∧ a.checkedInAt = none := by
  intro rows
  induction rows with
  | nil => intro i a h; simp [gsNormalizeAux] at h
  | cons r rs ih =>
    intro i a h
    rw [gsNormalizeAux] at h
    rcases List.mem_cons.mp h with h | h
    · subst h; exact ⟨rfl, rfl⟩
    · exact ih _ _ h

/-- The CSV normalizer preserves the check-in invariant row-wise. -/
theorem csvNormalizeAux_inv :
    ∀ (rows : List RawCsvRow), (∀ r ∈ rows, rawCsvRowInv r) →
      ∀ (i : Nat) (a : Attendee), a ∈ csvNormalizeAux rows i → attendeeInv a := by
  intro rows
  induction rows with
  | nil => intro _ i a h; simp [csvNormalizeAux] at h
  | cons r rs ih =>
    intro hraw i a h
    rw [csvNormalizeAux] at h
    rcases List.mem_cons.mp h with h | h
    · subst h
      exact hraw r (List.mem_cons_self _ _)
    · exact ih (fun x hx => hraw x (List.mem_cons_of_mem _ hx)) _ _ h

/-- C3 counterexample: the CSV normalizer copies `status` and `checkedInAt`
from the raw row independently, so a raw row claiming `checked-in` with no
timestamp normalizes to a roster record with `status = "checked-in"` and
`checkedInAt = null` — the claimed invariant fails on adapter output. -/
theorem csvNormalize_violates_invariant :
    csvNormalizeAttendeeData [{ attendeeName := "John Doe", status := "checked-in" }] =
      [{ id := "csv_0", tableNumber := "General", groupName := "",
         attendeeName := "John Doe", ticketType := "", email := "",
         additionalInfo := "", status := "checked-in", checkedInAt := none,
         rowIndex := 2 }] ∧
    ¬ attendeeInv
      { id := "csv_0", tableNumber := "General", groupName := "",
        attendeeName := "John Doe", ticketType := "", email := "",
        additionalInfo := "", status := "checked-in", checkedInAt := none,
        rowIndex := 2 } := by
  constructor
  · decide
  · unfold attendeeInv
    decide

/-- C3 (amended): the Google Sheets normalizer *establishes* the invariant
(every produced record is pending with null `checkedInAt`), while the CSV
normalizer and the server check-in overlay only *preserve* it: their output
satisfies `status = "checked-in" ↔ checkedInAt ≠ null` exactly when the raw
rows (after the normalizer's defaulting) and the overlay entries already
satisfy it. -/
theorem checkin_invariant_by_normalizer :
    (∀ validateEmail data, ∀ a ∈ gsNormalizeAttendeeData validateEmail data,
      attendeeInv a) ∧
    (∀ data, (∀ r ∈ data, rawCsvRowInv r) →
      ∀ a ∈ csvNormalizeAttendeeData data, attendeeInv a) ∧
    (∀ checkinData data, (∀ p ∈ checkinData, checkinEntryInv p.2) →
      (∀ a ∈ data, attendeeInv a) →
      ∀ b ∈ applyCheckins checkinData data, attendeeInv b) := by
  refine ⟨?_, ?_, ?_⟩
  · intro v data a ha
    have hmem := List.mem_of_mem_filter ha
    have h := gsNormalizeAux_pending v data 0 a hmem
    unfold attendeeInv
    rw [h.1, h.2]
    simp
  · intro data hraw a ha
    exact csvNormalizeAux_inv data hraw 0 a ha
  · intro ck data hck hdata b hb
    obtain ⟨a, ha, rfl⟩ := List.mem_map.mp hb
    cases hlu : ck.lookup a.id with
    | none => exact hdata a ha
    | some e => exact hck (a.id, e) (lookup_mem ck a.id e hlu)

/-- Witness for `checkin_invariant_by_normalizer`: a well-formed raw row
normalizes to a record satisfying the invariant. -/
theorem checkin_invariant_by_normalizer_witness :
    attendeeInv
      { id := "csv_0", tableNumber := "General", groupName := "",
        attendeeName := "Jane Doe", ticketType := "", email := "",
        additionalInfo := "", status := "checked-in",
        checkedInAt := some "2026-01-23T10:00:00Z", rowIndex := 2 } :=
  checkin_invariant_by_normalizer.2.1
    [{ attendeeName := "Jane Doe", status := "checked-in",
       checkedInAt := some "2026-01-23T10:00:00Z" }]
    (by intro r hr
        simp at hr
        subst hr
        unfold rawCsvRowInv
        decide)
    _ (by decide)

/-- `GoogleSheetsIntegration.normalizeAttendee` never drops a row: after the
fallbacks its drop test is always satisfied, so it returns the record with
both fallbacks applied. -/
theorem configNormalizeAttendee_eq (values : List String) (rowIndex : Nat) :
    configNormalizeAttendee values rowIndex =
      some { tableNumber :=
               if jsTrim (values.getD 0 "") = "" then "General"
               else jsTrim (values.getD 0 "")
             groupName :=
               if jsTrim (values.getD 1 "") = "" ∧ jsTrim (values.getD 3 "") ≠ "" then
                 jsTrim (values.getD 3 "")
               else jsTrim (values.getD 1 "")
             attendeeName := jsTrim (values.getD 2 "")
             ticketType := jsTrim (values.getD 3 "")
             status := "pending"
             rowIndex := rowIndex } := by
  unfold configNormalizeAttendee
  by_cases h0 : jsTrim (values.getD 0 "") = "" <;>
    (simp only [List.getD_eq_getElem?_getD] at h0 ⊢; simp [h0])

/-- C6 counterexample: on a row whose `tableNumber`, `groupName`,
`attendeeName` (and even `ticketType`) are all empty,
`GoogleSheetsIntegration.normalizeAttendee` does *not* drop the row: the
`tableNumber := "General"` fallback runs before the drop test, so the test
is always satisfied and a record is returned. -/
theorem configNormalizeAttendee_keeps_all_empty_row :
    configNormalizeAttendee ["", "", "", ""] 2 =
      some { tableNumber := "General", groupName := "", attendeeName := "",
             ticketType := "", status := "pending", rowIndex := 2 } ∧
    configNormalizeAttendee ["", "", "", ""] 2 ≠ none := by
  constructor
  · decide
  · decide

/-- C6 (amended): all-empty rows never appear in a returned roster, but not
because `normalizeAttendee` drops them. The sheet adapter's
`normalizeAttendeeData` keeps only rows with a non-empty attendee name
(an all-empty row yields nothing), and `parseSheetRows` filters out rows
whose first three cells are all empty before `normalizeAttendee` runs;
`normalizeAttendee` itself never returns `null` — its drop branch is
unreachable because the `tableNumber := "General"` fallback precedes it. -/
theorem all_empty_rows_dropped_upstream :
    (∀ validateEmail rows, ∀ a ∈ gsNormalizeAttendeeData validateEmail rows,
      a.attendeeName ≠ "") ∧
    (∀ validateEmail,
      gsNormalizeAttendeeData validateEmail [["", "", "", ""]] = []) ∧
    (∀ header body, parseSheetRows (header :: body) =
      parseSheetRows (header :: body.filter sheetRowHasData)) ∧
    (∀ values rowIndex, configNormalizeAttendee values rowIndex ≠ none) := by
  refine ⟨?_, ?_, ?_, ?_⟩
  · intro v rows a ha
    have := List.of_mem_filter ha
    simpa using this
  · intro v
    rfl
  · intro header body
    simp only [parseSheetRows, List.drop_succ_cons, List.drop_zero,
      List.filter_filter, Bool.and_self]
  · intro values rowIndex
    unfold configNormalizeAttendee
    by_cases h0 : jsTrim (values.getD 0 "") = "" <;>
      (simp only [List.getD_eq_getElem?_getD] at h0 ⊢; simp [h0])

/-- Witness for `all_empty_rows_dropped_upstream`: a roster produced by the
sheet adapter from a mixed snapshot contains no empty-named record. -/
theorem all_empty_rows_dropped_upstream_witness :
    ((gsNormalizeAttendeeData (fun _ => none)
        [["", "", "", ""], ["1", "VIP", "John Smith", "VIP Ticket"]]).getD 0
      default).attendeeName ≠ "" :=
  all_empty_rows_dropped_upstream.1 (fun _ => none)
    [["", "", "", ""], ["1", "VIP", "John Smith", "VIP Ticket"]] _ (by decide)

/-- C7: both normalizers apply the documented fallbacks — an empty (trimmed)
`groupName` with a non-empty `ticketType` becomes that `ticketType`, and an
empty (trimmed) `tableNumber` becomes the literal `"General"`; Scenario B's
raw row `["", "", "Jane Doe", "Standard"]` normalizes accordingly under
both. -/
theorem normalize_applies_fallbacks :
    (∀ validateEmail row index,
      (jsTrim (row.getD 1 "") = "" → jsTrim (row.getD 3 "") ≠ "" →
        (gsNormalizeRow validateEmail row index).groupName =
          jsTrim (row.getD 3 "")) ∧
      (jsTrim (row.getD 0 "") = "" →
        (gsNormalizeRow validateEmail row index).tableNumber = "General")) ∧
    (∀ values rowIndex a, configNormalizeAttendee values rowIndex = some a →
      (jsTrim (values.getD 1 "") = "" → jsTrim (values.getD 3 "") ≠ "" →
        a.groupName = jsTrim (values.getD 3 "")) ∧
      (jsTrim (values.getD 0 "") = "" → a.tableNumber = "General")) ∧
    (∀ validateEmail,
      gsNormalizeAttendeeData validateEmail [["", "", "Jane Doe", "Standard"]] =
        [{ id := "gsheet_jane_doe_0", tableNumber := "General",
           groupName := "Standard", attendeeName := "Jane Doe",
           ticketType := "Standard", email := "", additionalInfo := "",
           status := "pending", checkedInAt := none, rowIndex := 2 }]) ∧
    (configNormalizeAttendee ["", "", "Jane Doe", "Standard"] 2 =
      some { tableNumber := "General", groupName := "Standard",
             attendeeName := "Jane Doe", ticketType := "Standard",
             status := "pending", rowIndex := 2 }) := by
  refine ⟨?_, ?_, fun _ => rfl, by decide⟩
  · intro v row index
    constructor
    · intro h1 h2
      simp only [List.getD_eq_getElem?_getD] at h1 h2 ⊢
      simp [gsNormalizeRow, jsOr, h1, h2]
    · intro h0
      simp only [List.getD_eq_getElem?_getD] at h0 ⊢
      simp [gsNormalizeRow, jsOr, h0]
  · intro values rowIndex a h
    rw [configNormalizeAttendee_eq] at h
    constructor
    · intro h1 h2
      rw [Option.some_inj] at h
      subst h
      simp only [List.getD_eq_getElem?_getD] at h1 h2 ⊢
      simp [h1, h2]
    · intro h0
      rw [Option.some_inj] at h
      subst h
      simp only [List.getD_eq_getElem?_getD] at h0 ⊢
      simp [h0]

/-- Witness for `normalize_applies_fallbacks` at Scenario B's row. -/
theorem normalize_applies_fallbacks_witness :
    (gsNormalizeRow (fun _ => none) ["", "", "Jane Doe", "Standard"] 0).groupName =
      "Standard" :=
  (normalize_applies_fallbacks.1 (fun _ => none) ["", "", "Jane Doe", "Standard"] 0).1
    (by decide) (by decide)

/-- C8: `handleRealtimeUpdate` replaces exactly the record found by id for
an `UPDATE` delta — at the found index the roster holds the normalized new
record and every other position is untouched — and leaves the roster
entirely unchanged for non-`UPDATE` events, missing `new` records, and ids
matching no roster record. -/
theorem handleRealtimeUpdate_frame (payload : RealtimePayload)
    (attendees : List Attendee) :
    (payload.eventType ≠ "UPDATE" → handleRealtimeUpdate payload attendees = attendees) ∧
    (payload.newRecord = none → handleRealtimeUpdate payload attendees = attendees) ∧
    (∀ r, payload.newRecord = some r → (∀ a ∈ attendees, a.id ≠ r.id) →
      handleRealtimeUpdate payload attendees = attendees) ∧
    (∀ r i, payload.eventType = "UPDATE" → payload.newRecord = some r →
      attendees.findIdx? (fun a => a.id == r.id) = some i →
      handleRealtimeUpdate payload attendees =
        attendees.set i (realtimeReplacement r) ∧
      (handleRealtimeUpdate payload attendees)[i]? = some (realtimeReplacement r) ∧
      ∀ j, j ≠ i → (handleRealtimeUpdate payload attendees)[j]? = attendees[j]?) := by
  refine ⟨?_, ?_, ?_, ?_⟩
  · intro h
    simp [handleRealtimeUpdate, h]
  · intro h
    simp [handleRealtimeUpdate, h]
  · intro r hr hno
    have hidx : attendees.findIdx? (fun a => a.id == r.id) = none := by
      rw [List.findIdx?_eq_none_iff]
      intro x hx
      simp [hno x hx]
    simp [handleRealtimeUpdate, hr, hidx]
  · intro r i he hr hidx
    have heq : handleRealtimeUpdate payload attendees =
        attendees.set i (realtimeReplacement r) := by
      simp [handleRealtimeUpdate, he, hr, hidx]
    have hlt : i < attendees.length :=
      (List.findIdx?_eq_some_iff_findIdx_eq.mp hidx).1
    refine ⟨heq, ?_, ?_⟩
    · rw [heq, List.getElem?_set_self']
      simp [List.getElem?_eq_getElem hlt]
    · intro j hj
      rw [heq]
      exact List.getElem?_set_ne (Ne.symm hj)

/-- Witness for `handleRealtimeUpdate_frame`: Scenario C's delta against a
two-record roster containing id "7" updates exactly the first slot. -/
theorem handleRealtimeUpdate_frame_witness :
    handleRealtimeUpdate
        { eventType := "UPDATE",
          newRecord := some { id := "7", status := "checked-in",
                              checked_in_at := some "2026-01-23T10:00:00Z" } }
        [{ id := "7", tableNumber := "1", groupName := "VIP",
           attendeeName := "John Smith", ticketType := "VIP Ticket",
           email := "", additionalInfo := "", status := "pending",
           checkedInAt := none, rowIndex := 2 },
         { id := "8", tableNumber := "2", groupName := "",
           attendeeName := "Jane Doe", ticketType := "", email := "",
           additionalInfo := "", status := "pending", checkedInAt := none,
           rowIndex := 3 }] =
      [{ id := "7", tableNumber := "1", groupName := "VIP",
         attendeeName := "John Smith", ticketType := "VIP Ticket",
         email := "", additionalInfo := "", status := "checked-in",
         checkedInAt := some "2026-01-23T10:00:00Z", rowIndex := 2 },
       { id := "8", tableNumber := "2", groupName := "",
         attendeeName := "Jane Doe", ticketType := "", email := "",
         additionalInfo := "", status := "pending", checkedInAt := none,
         rowIndex := 3 }].set 0
        (realtimeReplacement { id := "7", status := "checked-in",
                               checked_in_at := some "2026-01-23T10:00:00Z" }) := by
  refine ((handleRealtimeUpdate_frame _ _).2.2.2 _ 0 rfl rfl (by decide)).1.trans ?_
  decide

/-- JavaScript `s || ""` is the identity. -/
theorem jsOr_empty (s : String) : jsOr s "" = s := by
  by_cases h : s = "" <;> simp [jsOr, h]

/-- The attendee name a sheet row normalizes to is its trimmed third cell. -/
theorem gsNormalizeRow_attendeeName (validateEmail : String → Option String)
    (row : SheetRow) (index : Nat) :
    (gsNormalizeRow validateEmail row index).attendeeName =
      jsTrim (row.getD 2 "") := by
  simp [gsNormalizeRow, jsOr_empty]

/-- The id a sheet row normalizes to is the synthesized id of its trimmed
third cell and its index. -/
theorem gsNormalizeRow_id (validateEmail : String → Option String)
    (row : SheetRow) (index : Nat) :
    (gsNormalizeRow validateEmail row index).id =
      gsheetId (jsTrim (row.getD 2 "")) index := by
  simp [gsNormalizeRow, jsOr_empty]

/-- Two sheet snapshots of equal length whose name cells agree index-wise
produce the same id sequence, whatever the other cells and the email
validator are. -/
theorem gsNormalizeAux_ids_congr (v₁ v₂ : String → Option String) :
    ∀ (d₁ d₂ : List SheetRow) (i : Nat), d₁.length = d₂.length →
      (∀ k, jsTrim ((d₁.getD k []).getD 2 "") = jsTrim ((d₂.getD k []).getD 2 "")) →
      (((gsNormalizeAux v₁ d₁ i).filter fun a => a.attendeeName ≠ "").map
          fun a => a.id) =
        (((gsNormalizeAux v₂ d₂ i).filter fun a => a.attendeeName ≠ "").map
          fun a => a.id) := by
  intro d₁
  induction d₁ with
  | nil =>
    intro d₂ i hlen hname
    cases d₂ with
    | nil => rfl
    | cons s ss => simp at hlen
  | cons r rs ih =>
    intro d₂ i hlen hname
    cases d₂ with
    | nil => simp at hlen
    | cons s ss =>
      have hname0 : jsTrim (r.getD 2 "") = jsTrim (s.getD 2 "") := hname 0
      have htail : ∀ k,
          jsTrim ((rs.getD k []).getD 2 "") = jsTrim ((ss.getD k []).getD 2 "") :=
        fun k => hname (k + 1)
      have hlen' : rs.length = ss.length := by simpa using hlen
      rw [gsNormalizeAux, gsNormalizeAux, List.filter_cons, List.filter_cons]
      by_cases hh : jsTrim (r.getD 2 "") = ""
      · rw [if_neg, if_neg]
        · exact ih ss (i + 1) hlen' htail
        · rw [gsNormalizeRow_attendeeName, ← hname0, hh]
          decide
        · rw [gsNormalizeRow_attendeeName, hh]
          decide
      · rw [if_pos, if_pos, List.map_cons, List.map_cons]
        · rw [gsNormalizeRow_id, gsNormalizeRow_id, hname0,
            ih ss (i + 1) hlen' htail]
        · rw [gsNormalizeRow_attendeeName, ← hname0]
          exact decide_eq_true hh
        · rw [gsNormalizeRow_attendeeName]
          exact decide_eq_true hh

/-- Id-determinism of the CSV normalizer on rows without a natural id. -/
theorem csvNormalizeAux_ids_congr :
    ∀ (d₁ d₂ : List RawCsvRow) (i : Nat), d₁.length = d₂.length →
      (∀ r ∈ d₁, r.id = "") → (∀ r ∈ d₂, r.id = "") →
      ((csvNormalizeAux d₁ i).map fun a => a.id) =
        ((csvNormalizeAux d₂ i).map fun a => a.id) := by
  intro d₁
  induction d₁ with
  | nil =>
    intro d₂ i hlen h₁ h₂
    cases d₂ with
    | nil => rfl
    | cons s ss => simp at hlen
  | cons r rs ih =>
    intro d₂ i hlen h₁ h₂
    cases d₂ with
    | nil => simp at hlen
    | cons s ss =>
      rw [csvNormalizeAux, csvNormalizeAux, List.map_cons, List.map_cons]
      have hr : r.id = "" := h₁ r (List.mem_cons_self _ _)
      have hs : s.id = "" := h₂ s (List.mem_cons_self _ _)
      rw [show (csvNormalizeRow r i).id = jsOr r.id ("csv_" ++ toString i) from rfl,
        show (csvNormalizeRow s i).id = jsOr s.id ("csv_" ++ toString i) from rfl,
        hr, hs]
      have hlen' : rs.length = ss.length := by simpa using hlen
      rw [ih ss (i + 1) hlen' (fun x hx => h₁ x (List.mem_cons_of_mem _ hx))
        (fun x hx => h₂ x (List.mem_cons_of_mem _ hx))]

/-- C9: the synthesized ids are a deterministic function of the origin kind,
the (trimmed) attendee name and the row index only: two sheet snapshots of
equal length agreeing on name cells yield identical id sequences (whatever
the other cells or the injected email validator), and two CSV snapshots of
equal length whose rows carry no natural id yield identical id sequences.
Normalizing the same unchanged snapshot twice is the special case of equal
snapshots. -/
theorem synthesized_ids_deterministic :
    (∀ (v₁ v₂ : String → Option String) (d₁ d₂ : List SheetRow),
      d₁.length = d₂.length →
      (∀ k, jsTrim ((d₁.getD k []).getD 2 "") = jsTrim ((d₂.getD k []).getD 2 "")) →
      ((gsNormalizeAttendeeData v₁ d₁).map fun a => a.id) =
        ((gsNormalizeAttendeeData v₂ d₂).map fun a => a.id)) ∧
    (∀ d₁ d₂ : List RawCsvRow, d₁.length = d₂.length →
      (∀ r ∈ d₁, r.id = "") → (∀ r ∈ d₂, r.id = "") →
      ((csvNormalizeAttendeeData d₁).map fun a => a.id) =
        ((csvNormalizeAttendeeData d₂).map fun a => a.id)) := by
  constructor
  · intro v₁ v₂ d₁ d₂ hlen hname
    exact gsNormalizeAux_ids_congr v₁ v₂ d₁ d₂ 0 hlen hname
  · intro d₁ d₂ hlen h₁ h₂
    exact csvNormalizeAux_ids_congr d₁ d₂ 0 hlen h₁ h₂

/-- Witness for `synthesized_ids_deterministic`: the same name column under
different validators and different non-name cells yields the same ids. -/
theorem synthesized_ids_deterministic_witness :
    ((gsNormalizeAttendeeData (fun _ => none)
        [["1", "VIP", "John Smith", "x"]]).map fun a => a.id) =
      ((gsNormalizeAttendeeData (fun e => some e)
        [["2", "", "John Smith", "y"]]).map fun a => a.id) :=
  synthesized_ids_deterministic.1 (fun _ => none) (fun e => some e)
    [["1", "VIP", "John Smith", "x"]] [["2", "", "John Smith", "y"]]
    (by decide) (by intro k; cases k <;> rfl)

/-- C10: `parseCsvData` returns nothing when fewer than two non-blank lines
exist, every returned row has at least three non-empty fields, the first
non-blank line is consumed as a header, and a data row with only one or two
non-empty columns is silently dropped. -/
theorem parseCsvData_spec :
    (∀ csvText,
      ((jsSplitLines csvText).filter fun line => jsTrim line ≠ "").length < 2 →
      parseCsvData csvText = []) ∧
    (∀ csvText row, row ∈ parseCsvData csvText →
      3 ≤ (row.filter fun v => v ≠ "").length) ∧
    (parseCsvData "a,b,c\nd,e,f" = [["d", "e", "f"]]) ∧
    (parseCsvData "h1,h2,h3\n,,Jane Doe,Standard" = []) := by
  refine ⟨?_, ?_, by decide, by decide⟩
  · intro t h
    simp only [ne_eq, decide_not] at h
    simp [parseCsvData, h]
  · intro t row h
    simp only [parseCsvData] at h
    split at h
    · simp at h
    · obtain ⟨line, hline, hf⟩ := List.mem_filterMap.mp h
      split at hf
      · simp at hf
      · split at hf
        · rw [Option.some_inj] at hf
          subst hf
          assumption
        · simp at hf

/-- Witness for `parseCsvData_spec` on a single-line input. -/
theorem parseCsvData_spec_witness :
    parseCsvData "table,group,name" = [] :=
  parseCsvData_spec.1 "table,group,name" (by decide)
